import Mathlib

/-!
Verification development for the form-builder decision engine.

The definitions below are a shallow embedding of the Python sources
`app/services/condition_engine.py` and `app/services/form_renderer_service.py`
(together with the data model of `app/models.py`).  Pure Python functions
become Lean functions; the SQLAlchemy session becomes an explicit `DB` record
that is threaded through `render_form`; every Python exception path becomes an
`Except` error value.  Answer values (Python `Any`) are modelled by the
inductive `Value` covering the JSON-ish universe the service actually
receives: strings, integers, booleans and (nested) lists.  Python `float`
values inside comparisons are modelled by exact rationals extended with
infinities and NaN (`PyFloat`); string case-folding is modelled for ASCII.
-/

set_option linter.unusedVariables false

namespace FormBuilder

/-! ## Data model enums (`app/models.py`) -/

/-- `ConditionOperator` enum of `app/models.py`. -/
inductive ConditionOperator where
  | EQUALS
  | NOT_EQUALS
  | GREATER_THAN
  | LESS_THAN
  | GREATER_EQUAL
  | LESS_EQUAL
  | CONTAINS
  | NOT_CONTAINS
  | IN
  | NOT_IN
  | IS_EMPTY
  | IS_NOT_EMPTY
deriving DecidableEq, Repr

/-- `ConditionAction` enum of `app/models.py`. -/
inductive ConditionAction where
  | SHOW
  | HIDE
  | ENABLE
  | DISABLE
  | REQUIRE
  | SKIP
deriving DecidableEq, Repr

/-! ## Python answer values

`Value` models the Python values that can appear in an answers dict: strings
(the persisted `FieldResponse.value` column is text), numbers, booleans, and
lists (multi-select answers from the frontend).  An *absent or null* value is
`Option.none` at use sites. -/

inductive Value where
  | vStr (s : String)
  | vInt (n : Int)
  | vBool (b : Bool)
  | vList (xs : List Value)

/-- The single-quote character, written by code point to keep source text plain. -/
def sqChar : Char := Char.ofNat 39

/-- The double-quote character, written by code point. -/
def dqChar : Char := Char.ofNat 34

/-- Escape a backslash or the given quote character, as Python `repr` does for
strings (escaping of non-printable characters is not modelled). -/
def pyEscape (quote : Char) (s : String) : String :=
  String.mk (s.data.foldr
    (fun c acc =>
      if c == '\\' then '\\' :: '\\' :: acc
      else if c == quote then '\\' :: quote :: acc
      else c :: acc) [])

/-- Python `repr` of a string: single quotes by default; double quotes when the
string contains a single quote but no double quote. -/
def pyReprStr (s : String) : String :=
  if s.data.contains sqChar && !s.data.contains dqChar then
    String.singleton dqChar ++ pyEscape dqChar s ++ String.singleton dqChar
  else
    String.singleton sqChar ++ pyEscape sqChar s ++ String.singleton sqChar

mutual

/-- Python `repr` of a `Value` (used by `str` on list elements). -/
def pyRepr : Value → String
  | .vStr s => pyReprStr s
  | .vInt n => toString n
  | .vBool b => if b then "True" else "False"
  | .vList xs => "[" ++ pyReprList xs ++ "]"

/-- Comma-separated `repr`s of the elements of a Python list. -/
def pyReprList : List Value → String
  | [] => ""
  | [x] => pyRepr x
  | x :: y :: rest => pyRepr x ++ ", " ++ pyReprList (y :: rest)

end

/-- Python `str()` of a `Value`: identity on strings, `repr` elsewhere (which
for `int`, `bool` and `list` coincides with `str`). -/
def pyStr : Value → String
  | .vStr s => s
  | v => pyRepr v

/-- `isinstance(field_value, (str, int, float, bool))` on the modelled value
universe: everything except a list. -/
def isScalarValue : Value → Bool
  | .vList _ => false
  | _ => true

/-- The emptiness test of `evaluate_operator` (condition_engine.py lines
16-20): `field_value is None or field_value == "" or (isinstance(field_value,
list) and len(field_value) == 0)`. -/
def pyIsEmptyOpt : Option Value → Bool
  | none => true
  | some (.vStr "") => true
  | some (.vList []) => true
  | some _ => false

/-- Python `str.lower()`, modelled for ASCII (character-list based so that it
evaluates by kernel reduction). -/
def pyLower (s : String) : String :=
  String.mk (s.data.map Char.toLower)

/-- Python whitespace for `str.strip()`/`float()` stripping, ASCII range. -/
def pyIsSpace (c : Char) : Bool :=
  c == ' ' || c == '\t' || c == '\n' || c == '\r' || c == Char.ofNat 11 || c == Char.ofNat 12

/-- Python `str.strip()` with no argument: drop whitespace from both ends. -/
def pyStrip (s : String) : String :=
  String.mk (((s.data.dropWhile pyIsSpace).reverse.dropWhile pyIsSpace).reverse)

/-- Split a character list on a separator character; like Python
`str.split(sep)` for a one-character separator (so `"" → [""]`). -/
def splitCharAux (sep : Char) : List Char → List Char → List String
  | [], acc => [String.mk acc.reverse]
  | c :: rest, acc =>
    if c == sep then String.mk acc.reverse :: splitCharAux sep rest []
    else splitCharAux sep rest (c :: acc)

/-- Python `s.split(",")`. -/
def pySplitComma (s : String) : List String :=
  splitCharAux ',' s.data []

/-- Membership of `needle` as a contiguous substring of `hay` (Python `in` on
strings), on character lists. -/
def charListPrefixOf : List Char → List Char → Bool
  | [], _ => true
  | _ :: _, [] => false
  | a :: as, b :: bs => a == b && charListPrefixOf as bs

/-- Python `needle in hay` for strings, as a scan over the haystack. -/
def charListSub (needle : List Char) : List Char → Bool
  | [] => needle.isEmpty
  | c :: rest => charListPrefixOf needle (c :: rest) || charListSub needle rest

/-! ## Python `float()` parsing

Models CPython `float(str)` for ASCII input: optional sign, `inf`/`infinity`/
`nan` (case-insensitive), or a decimal literal with optional fraction and
exponent where underscores may appear between digits.  Finite results are kept
as exact fractions (no binary rounding; literals too large for a double are
kept finite as well). -/

inductive PyFloat where
  | finite (num : Int) (den : Nat)
  | inf
  | ninf
  | nan
deriving DecidableEq, Repr

/-- After one leading digit, a run of digits with underscores between digits. -/
def digitsRun : List Char → Bool
  | [] => true
  | [c] => c.isDigit
  | c :: d :: rest =>
    if c.isDigit then digitsRun (d :: rest)
    else c == '_' && d.isDigit && digitsRun rest

/-- A valid Python digit group: `digit (digit | _ digit)*`. -/
def validDigitGroup : List Char → Bool
  | [] => false
  | c :: rest => c.isDigit && digitsRun rest

/-- Numeric value of the digits in a group, ignoring underscores. -/
def digitsVal (cs : List Char) : Nat :=
  (cs.filter (fun c => c.isDigit)).foldl (fun n c => 10 * n + (c.toNat - 48)) 0

/-- Number of digits (underscores excluded) in a group. -/
def digitsLen (cs : List Char) : Nat :=
  (cs.filter (fun c => c.isDigit)).length

/-- Split a character list at the first character satisfying `p`; the second
component is `none` when no such character occurs. -/
def splitFirst (p : Char → Bool) : List Char → List Char × Option (List Char)
  | [] => ([], none)
  | c :: rest =>
    if p c then ([], some rest)
    else
      let (a, b) := splitFirst p rest
      (c :: a, b)

/-- Parse a leading `+`/`-` sign; `true` means negative. -/
def parseSign : List Char → Bool × List Char
  | '+' :: rest => (false, rest)
  | '-' :: rest => (true, rest)
  | cs => (false, cs)

/-- Parse the mantissa (before any exponent): `digits [. digits?] | [digits] . digits`.
Returns the value scaled to an integer together with the fraction length. -/
def parseMantissa (cs : List Char) : Option (Nat × Nat) :=
  let (ip, fp?) := splitFirst (fun c => c == '.') cs
  match fp? with
  | none =>
    if validDigitGroup ip then some (digitsVal ip, 0) else none
  | some fp =>
    if fp.any (fun c => c == '.') then none
    else if ip.isEmpty then
      if validDigitGroup fp then some (digitsVal fp, digitsLen fp) else none
    else if validDigitGroup ip && (fp.isEmpty || validDigitGroup fp) then
      some (digitsVal ip * 10 ^ digitsLen fp + digitsVal fp, digitsLen fp)
    else none

/-- CPython `float(str)` on ASCII input. -/
def parsePyFloat (s : String) : Option PyFloat :=
  let cs := (pyStrip s).data
  let (neg, rest) := parseSign cs
  let low := rest.map Char.toLower
  if low == "inf".data || low == "infinity".data then
    some (if neg then .ninf else .inf)
  else if low == "nan".data then
    some .nan
  else
    let (mant, exp?) := splitFirst (fun c => c == 'e' || c == 'E') rest
    let expVal? : Option Int :=
      match exp? with
      | none => some 0
      | some ecs =>
        let (eneg, edigits) := parseSign ecs
        if validDigitGroup edigits then
          some (if eneg then -(digitsVal edigits : Int) else (digitsVal edigits : Int))
        else none
    match expVal? with
    | none => none
    | some e =>
      match parseMantissa mant with
      | none => none
      | some (m, fracLen) =>
        let num0 : Int := if neg then -(m : Int) else (m : Int)
        if 0 ≤ e then some (.finite (num0 * 10 ^ e.toNat) (10 ^ fracLen))
        else some (.finite num0 (10 ^ fracLen * 10 ^ (-e).toNat))

/-- `float(field_value) if not isinstance(field_value, (int, float)) else
field_value` (condition_engine.py line 51): ints and bools pass through
(`bool` is an `int` in Python); strings are parsed; a list raises `TypeError`,
modelled as `none`. -/
def pyFloatOfValue : Value → Option PyFloat
  | .vInt n => some (.finite n 1)
  | .vBool b => some (.finite (if b then 1 else 0) 1)
  | .vStr s => parsePyFloat s
  | .vList _ => none

/-- Strict less-than on `PyFloat` (finite values are unnormalized fractions
with positive denominator, compared by cross-multiplication); every comparison
with NaN is false. -/
def pfLt : PyFloat → PyFloat → Bool
  | .nan, _ => false
  | _, .nan => false
  | .ninf, .ninf => false
  | .ninf, _ => true
  | _, .ninf => false
  | .inf, _ => false
  | .finite _ _, .inf => true
  | .finite a b, .finite c d => decide (a * (d : Int) < c * (b : Int))

/-- Less-or-equal on `PyFloat`; every comparison with NaN is false. -/
def pfLe : PyFloat → PyFloat → Bool
  | .nan, _ => false
  | _, .nan => false
  | .ninf, _ => true
  | _, .ninf => false
  | _, .inf => true
  | .inf, .finite _ _ => false
  | .finite a b, .finite c d => decide (a * (d : Int) ≤ c * (b : Int))

/-! ## `ConditionEngine.evaluate_operator` (condition_engine.py lines 13-68) -/

/-- `ConditionEngine.evaluate_operator`.  The observed value is
`Option Value` (`none` is Python `None`); the literal comparison value is the
string the callers pass (`condition.value or ""`).

Follows the source line by line: the emptiness operators short-circuit first;
a null observed value then yields `false`; string-family operators compare the
stringified observed value (lower-cased only for scalars, line 26) with the
lower-cased literal (line 27); `in`/`not_in` split the raw literal on commas,
strip and lower-case the pieces; the remaining operators parse both sides as
floats, any parse failure yielding `false`, and the final catch-all returns
`false`. -/
def evaluate_operator (operator : ConditionOperator) (field_value : Option Value)
    (condition_value : String) : Bool :=
  match operator, field_value with
  | .IS_EMPTY, _ => pyIsEmptyOpt field_value
  | .IS_NOT_EMPTY, _ => !pyIsEmptyOpt field_value
  | _, none => false
  | op, some v =>
    let field_str := if isScalarValue v then pyLower (pyStr v) else pyStr v
    let condition_str := if condition_value != "" then pyLower condition_value else ""
    match op with
    | .EQUALS => field_str == condition_str
    | .NOT_EQUALS => field_str != condition_str
    | .CONTAINS => charListSub condition_str.data field_str.data
    | .NOT_CONTAINS => !charListSub condition_str.data field_str.data
    | .IN => ((pySplitComma condition_value).map (fun x => pyLower (pyStrip x))).contains field_str
    | .NOT_IN => !(((pySplitComma condition_value).map (fun x => pyLower (pyStrip x))).contains field_str)
    | _ =>
      match pyFloatOfValue v, parsePyFloat condition_value with
      | some field_num, some condition_num =>
        match op with
        | .GREATER_THAN => pfLt condition_num field_num
        | .LESS_THAN => pfLt field_num condition_num
        | .GREATER_EQUAL => pfLe condition_num field_num
        | .LESS_EQUAL => pfLe field_num condition_num
        | _ => false
      | _, _ => false

/-! ## Answers dictionaries

Python `Dict[str, Any]` where a stored value may itself be `None`
(`FieldResponse.value` is nullable).  Modelled as an association list whose
lookup distinguishes a missing key from a key stored with a null value, as
Python `in` versus `.get` does.  Keys are assumed distinct (dict semantics);
`dinsertNew` is only used behind a `not in` guard, and `dmerge` keeps the
override's binding for every key the override contains. -/

abbrev PyDict := List (String × Option Value)

/-- First binding of a key, if the key is present (Python `k in d` + `d[k]`). -/
def dlookup : PyDict → String → Option (Option Value)
  | [], _ => none
  | (k, v) :: rest, key => if k == key then some v else dlookup rest key

/-- Python `d.get(k)`: the stored value, or `None` when absent. -/
def dget (d : PyDict) (k : String) : Option Value :=
  (dlookup d k).getD none

/-- Python `k in d`. -/
def dmem (d : PyDict) (k : String) : Bool :=
  (dlookup d k).isSome

/-- Python `d[k] = v` for a key known to be absent. -/
def dinsertNew (d : PyDict) (k : String) (v : Option Value) : PyDict :=
  (k, v) :: d

/-- Python `{**base, **override}` / `base.copy(); base.update(override)`:
lookups prefer the override's binding. -/
def dmerge (base override : PyDict) : PyDict :=
  override ++ base

/-- Python truthiness of a rendered answer in the completion test
(`v is not None and v != ''`). -/
def isAnsweredVal : Option Value → Bool
  | none => false
  | some (.vStr s) => s != ""
  | some _ => true

/-- Python truthiness of a nullable integer id column (`None` and `0` falsy). -/
def pyTruthyOptNat : Option Nat → Bool
  | none => false
  | some n => n != 0

/-! ## `ConditionEngine.evaluate_field_conditions` (condition_engine.py lines 70-157) -/

/-- A `FieldCondition` row as the ORM presents it to the engine: the ids of
the model plus the lazily loaded `source_field.name` relationship. -/
structure FieldCondition where
  source_field_id : Nat
  target_field_id : Nat
  source_field_name : String
  operator : ConditionOperator
  value : Option String
  action : ConditionAction

/-- The result dict of `evaluate_field_conditions`; the Python string keys
`"show" ... "skip"` become the fields `showFlag ... skipFlag`. -/
structure FieldConditionResult where
  showFlag : Bool
  hideFlag : Bool
  enableFlag : Bool
  disableFlag : Bool
  requireFlag : Bool
  skipFlag : Bool
deriving DecidableEq, Repr

/-- Lines 118-136 of the condition loop: look up the source field's answer and
evaluate the operator against `condition.value or ""`.  (The
`if field_value is None and name not in answers` branch of the source is a
no-op and is not reproduced.) -/
def condMet (answers : PyDict) (condition : FieldCondition) : Bool :=
  evaluate_operator condition.operator (dget answers condition.source_field_name)
    (condition.value.getD "")

/-- One iteration of the condition loop (condition_engine.py lines 118-155):
on a match overwrite the flags for the condition's action. -/
def applyCondition (answers : PyDict) (result : FieldConditionResult)
    (condition : FieldCondition) : FieldConditionResult :=
  if condMet answers condition then
    match condition.action with
    | .SHOW => { result with showFlag := true, hideFlag := false }
    | .HIDE => { result with showFlag := false, hideFlag := true }
    | .ENABLE => { result with enableFlag := true, disableFlag := false }
    | .DISABLE => { result with enableFlag := false, disableFlag := true }
    | .REQUIRE => { result with requireFlag := true }
    | .SKIP => { result with skipFlag := true }
  else result

/-- `ConditionEngine.evaluate_field_conditions`: classify the condition set,
establish the baseline flags (hidden when only `show` conditions exist,
visible otherwise), then fold the condition loop over the stored order. -/
def evaluate_field_conditions (field_id : Nat) (conditions : List FieldCondition)
    (answers : PyDict) : FieldConditionResult :=
  let has_show_conditions := conditions.any (fun c => c.action == .SHOW)
  let has_hide_conditions := conditions.any (fun c => c.action == .HIDE)
  let has_require_conditions := conditions.any (fun c => c.action == .REQUIRE)
  let has_disable_conditions := conditions.any (fun c => c.action == .DISABLE)
  let has_enable_conditions := conditions.any (fun c => c.action == .ENABLE)
  let has_skip_conditions := conditions.any (fun c => c.action == .SKIP)
  let result :=
    if has_show_conditions && !has_hide_conditions then
      { showFlag := false, hideFlag := true,
        enableFlag := !has_disable_conditions, disableFlag := has_disable_conditions,
        requireFlag := has_require_conditions, skipFlag := has_skip_conditions }
    else
      { showFlag := true, hideFlag := false,
        enableFlag := !has_disable_conditions, disableFlag := has_disable_conditions,
        requireFlag := has_require_conditions, skipFlag := has_skip_conditions }
  conditions.foldl (applyCondition answers) result

/-- `ConditionEngine.should_field_be_visible` (condition_engine.py lines
199-210). -/
def should_field_be_visible (field_id : Nat) (field_conditions : List FieldCondition)
    (answers : PyDict) : Bool :=
  if field_conditions.isEmpty then true
  else
    let result := evaluate_field_conditions field_id field_conditions answers
    result.showFlag && !result.hideFlag

/-! ## `ConditionEngine.determine_next_page` (condition_engine.py lines 159-197) -/

/-- A `PageNavigationRule` row as the ORM presents it: the model's columns
plus the lazily loaded `source_field.name` relationship (`none` when
`source_field_id` is null; the `db` session parameter of the source only
serves this lazy loading and is therefore dropped). -/
structure NavRule where
  page_id : Nat
  source_field_id : Option Nat
  source_field_name : Option String
  operator : ConditionOperator
  value : Option String
  target_page_id : Option Nat
  is_default : Bool

/-- Whether a (non-default) rule matches: `rule.source_field_id` truthy and
its operator satisfied by the source field's answer against `rule.value or ""`. -/
def navRuleMatches (answers : PyDict) (rule : NavRule) : Bool :=
  pyTruthyOptNat rule.source_field_id &&
    evaluate_operator rule.operator (dget answers (rule.source_field_name.getD ""))
      (rule.value.getD "")

/-- The rule loop of `determine_next_page` (lines 173-197): a default rule
returns its target immediately (non-default rules sort before default ones);
a matching conditional rule returns its target (which may itself be absent);
otherwise continue, ending in `none`. -/
def detLoop (answers : PyDict) : List NavRule → Option Nat
  | [] => none
  | rule :: rest =>
    if rule.is_default then rule.target_page_id
    else if navRuleMatches answers rule then rule.target_page_id
    else detLoop answers rest

/-- `ConditionEngine.determine_next_page`: Python's stable
`sorted(navigation_rules, key=lambda r: r.is_default)` is the partition
non-default-then-default, each part in stored order. -/
def determine_next_page (current_page_id : Nat) (navigation_rules : List NavRule)
    (answers : PyDict) : Option Nat :=
  let sorted_rules := navigation_rules.filter (fun r => !r.is_default) ++
    navigation_rules.filter (fun r => r.is_default)
  detLoop answers sorted_rules

/-! ## Database model for `FormRendererService` (app/models.py)

One record per relevant table.  Presentational columns not used by any
decision (label, placeholder, help text, options, validation rules, page
description) are omitted.  A submission's `FieldResponse` rows appear as the
ready-joined `answers` dict that `get_current_answers` builds (field name →
stored value); timestamps are abstract `Nat`s supplied by the caller. -/

structure FormRow where
  id : Nat
  title : String

structure PageRow where
  id : Nat
  form_id : Nat
  title : String
  order : Int
  is_first : Bool

structure FieldRow where
  id : Nat
  page_id : Nat
  name : String
  order : Int
  is_required : Bool
  is_visible : Bool
  default_value : Option String

structure SubmissionRow where
  form_id : Nat
  session_id : String
  status : String
  current_page_id : Option Nat
  completed_at : Option Nat
  answers : PyDict

structure DB where
  forms : List FormRow
  pages : List PageRow
  fields : List FieldRow
  conditions : List FieldCondition
  nav_rules : List NavRule
  submissions : List SubmissionRow

/-- Stable insertion of `x` into `l` before the first element `y` with
`le x y`; folded from the right this yields a stable sort. -/
def insertLe {α : Type} (le : α → α → Bool) (x : α) : List α → List α
  | [] => [x]
  | y :: ys => if le x y then x :: y :: ys else y :: insertLe le x ys

/-- Stable sort by a total boolean preorder; models Python's stable `sorted`
and the SQL `ORDER BY` of the source queries. -/
def sortStable {α : Type} (le : α → α → Bool) (l : List α) : List α :=
  l.foldr (insertLe le) []

/-- The `(not p.is_first, p.order or 0)` sort key of form_renderer_service.py
line 268 (for an integer column, `p.order or 0 = p.order`). -/
def pageTotalLe (a b : PageRow) : Bool :=
  if a.is_first == b.is_first then decide (a.order ≤ b.order) else a.is_first

/-- `ORDER BY Field.order`. -/
def fieldOrderLe (a b : FieldRow) : Bool :=
  decide (a.order ≤ b.order)

/-- `ORDER BY Page.order`. -/
def pageOrderLe (a b : PageRow) : Bool :=
  decide (a.order ≤ b.order)

/-- `db.query(Submission).filter(session_id, form_id).first()`. -/
def findSubmission (db : DB) (session_id : String) (form_id : Nat) : Option SubmissionRow :=
  db.submissions.find? (fun s => s.session_id == session_id && s.form_id == form_id)

/-- Update the first submission matching `(session_id, form_id)` — the one the
source's query returns and mutates. -/
def updateSubList (session_id : String) (form_id : Nat) (f : SubmissionRow → SubmissionRow) :
    List SubmissionRow → List SubmissionRow
  | [] => []
  | s :: rest =>
    if s.session_id == session_id && s.form_id == form_id then f s :: rest
    else s :: updateSubList session_id form_id f rest

/-- Commit a mutation of the current submission ORM object. -/
def dbUpdateSubmission (db : DB) (session_id : String) (form_id : Nat)
    (f : SubmissionRow → SubmissionRow) : DB :=
  { db with submissions := updateSubList session_id form_id f db.submissions }

/-- `FormRendererService.get_current_answers` (lines 15-31): the submission is
looked up by session id alone (first match), and its responses joined by
field name. -/
def get_current_answers (db : DB) (session_id : String) : PyDict :=
  match db.submissions.find? (fun s => s.session_id == session_id) with
  | none => []
  | some submission => submission.answers

/-! ## `FormRendererService.render_form` (form_renderer_service.py lines 47-504) -/

/-- The `RenderedField` schema restricted to the decision-relevant fields
(static presentational columns are omitted; note the source passes the static
`field.is_required` to the schema at line 247, discarding the conditionally
computed requiredness). -/
structure RenderedField where
  id : Nat
  name : String
  is_required : Bool
  is_visible : Bool
  current_value : Option Value

structure RenderedPage where
  id : Nat
  title : String
  order : Int
  is_first : Bool
  fields : List RenderedField

structure FormRenderResponse where
  form_id : Nat
  form_title : String
  current_page : RenderedPage
  next_page_id : Option Nat
  is_complete : Bool
  progress : ℚ

/-- The two `ValueError`s `render_form` can raise (lines 59 and 147). -/
inductive RenderError where
  | formNotFound (form_id : Nat)
  | noPages
deriving DecidableEq, Repr

/-- Lines 61-89: get or create the submission; an existing submission with no
stored answers has its current-page pointer reset to null
(`is_new_submission` of the source is `(findSubmission db session_id
form_id).isNone`, computed separately in `render_form`). -/
def getOrCreateSubmission (db : DB) (form_id : Nat) (session_id : String) : DB :=
  match findSubmission db session_id form_id with
  | none =>
    { db with submissions := db.submissions ++
      [{ form_id := form_id, session_id := session_id, status := "in_progress",
         current_page_id := none, completed_at := none, answers := [] }] }
  | some _ =>
    let existing_answers := get_current_answers db session_id
    if existing_answers.isEmpty then
      dbUpdateSubmission db session_id form_id (fun s => { s with current_page_id := none })
    else db

/-- Lines 111-144: determine the page to render — the stored pointer's page
(clamped to this form) for a pre-existing submission with a truthy pointer,
else the form's `is_first` page, else the first page by `ORDER BY order`. -/
def resolveCurrentPage (db : DB) (form_id : Nat) (is_new_submission : Bool)
    (current_page_id : Option Nat) : Option PageRow :=
  let fromPointer :=
    if !is_new_submission && pyTruthyOptNat current_page_id then
      db.pages.find? (fun p => some p.id == current_page_id && p.form_id == form_id)
    else none
  match fromPointer with
  | some p => some p
  | none =>
    match db.pages.find? (fun p => p.form_id == form_id && p.is_first) with
    | some p => some p
    | none => (sortStable pageOrderLe (db.pages.filter (fun p => p.form_id == form_id))).head?

/-- Sequential successor (lines 296-303): the page after index `idx` in the
total order, if any. -/
def seqNextPageId (sorted_pages : List PageRow) (idx : Nat) : Option Nat :=
  if idx < sorted_pages.length - 1 then (sorted_pages.get? (idx + 1)).map (fun p => p.id)
  else none

/-- Lines 271-303 (and identically lines 459-474): navigation rules first,
sequential successor as the fallback whenever they resolve to `None`; a page
with no rules goes sequentially at once. -/
def nextPageWithFallback (sorted_pages : List PageRow) (idx : Nat) (current_page_id : Nat)
    (rules : List NavRule) (nav_answers : PyDict) : Option Nat :=
  if !rules.isEmpty then
    match determine_next_page current_page_id rules nav_answers with
    | some p => some p
    | none => seqNextPageId sorted_pages idx
  else seqNextPageId sorted_pages idx

/-- Lines 196-255 for one field: conditions targeting the field decide its
visibility against the default-filled evaluation answers; the shown value is
the field's entry in the rendering answers. -/
def renderField (all_conds : List FieldCondition) (cea ans : PyDict) (f : FieldRow) :
    RenderedField :=
  let target_conditions := all_conds.filter (fun c => c.target_field_id == f.id)
  let is_visible :=
    if !target_conditions.isEmpty then
      let condition_result := evaluate_field_conditions f.id target_conditions cea
      let has_visibility_conditions :=
        target_conditions.any (fun c => c.action == .SHOW || c.action == .HIDE)
      if has_visibility_conditions then
        condition_result.showFlag && !condition_result.hideFlag
      else f.is_visible
    else f.is_visible
  { id := f.id, name := f.name, is_required := f.is_required,
    is_visible := is_visible, current_value := dget ans f.name }

/-- Lines 313-317: some field of the page has a non-null, non-empty answer. -/
def pageHasAnswers (fields : List FieldRow) (ans : PyDict) : Bool :=
  fields.any (fun f => isAnsweredVal (dget ans f.name))

/-- Assemble the `FormRenderResponse` exactly as the source computes it for a
page: rendered fields from `renderField`, and
`is_complete = next_page_id is None and current_page_has_answers` (line 318 /
line 482) over the same answers dict used for the fields' current values. -/
def assembleResponse (form : FormRow) (page : PageRow) (fields : List FieldRow)
    (conds : List FieldCondition) (cea ans : PyDict) (next_page_id : Option Nat)
    (progress : ℚ) : FormRenderResponse :=
  { form_id := form.id, form_title := form.title,
    current_page := { id := page.id, title := page.title, order := page.order,
                      is_first := page.is_first,
                      fields := fields.map (renderField conds cea ans) },
    next_page_id := next_page_id,
    is_complete := next_page_id.isNone && pageHasAnswers fields ans,
    progress := progress }

/-- Line 96: `current_answers is not None and isinstance(current_answers,
dict) and len(current_answers) > 0`. -/
def originalAnswersPassed : Option PyDict → Bool
  | some d => !d.isEmpty
  | none => false

/-- Lines 98-109: merge answers, in-flight answers taking precedence; with no
in-flight answers use the persisted ones, else an empty dict. -/
def mergedCurrentAnswers (db_answers : PyDict) (current_answers_in : Option PyDict) : PyDict :=
  if originalAnswersPassed current_answers_in then dmerge db_answers (current_answers_in.getD [])
  else if !db_answers.isEmpty then db_answers
  else current_answers_in.getD []

/-- Lines 305-307 / 476: `(index + 1) / total * 100` (0 when the form has no
pages; the 2-decimal rounding of the source is presentational and omitted). -/
def progressOf (total_pages idx : Nat) : ℚ :=
  if total_pages > 0 then ((idx : ℚ) + 1) / (total_pages : ℚ) * 100 else 0

/-- Lines 320-359: rendering advances to the next page only when a truthy
next page exists, the submission is not new, the current page has a non-empty
persisted answer, and no in-flight answers were passed (i.e. the render is a
post-submission render, not a real-time evaluation; the `is_realtime_eval`
value the source computes at lines 338-354 is unused in this decision). -/
def shouldAdvance (db_answers : PyDict) (fields : List FieldRow) (next_page_id : Option Nat)
    (is_new_submission original_current_answers_passed : Bool) : Bool :=
  if pyTruthyOptNat next_page_id && !is_new_submission then
    let current_page_db_answers :=
      db_answers.filter (fun kv => fields.any (fun f => f.name == kv.fst))
    let has_db_answers := !current_page_db_answers.isEmpty &&
      current_page_db_answers.any (fun kv => isAnsweredVal kv.snd)
    has_db_answers && !original_current_answers_passed
  else false

/-- Lines 484-495, database part: persist the rendered page as the session
pointer when it differs (or the pointer is falsy), then on completion persist
status `completed` and the completion timestamp. -/
def finishDB (db : DB) (session_id : String) (form_id : Nat) (rendered_page : PageRow)
    (response : FormRenderResponse) (now : Nat) : DB :=
  let cpid := (findSubmission db session_id form_id).bind (fun s => s.current_page_id)
  let db1 :=
    if !pyTruthyOptNat cpid || cpid != some rendered_page.id then
      dbUpdateSubmission db session_id form_id
        (fun s => { s with current_page_id := some rendered_page.id })
    else db
  if response.is_complete then
    dbUpdateSubmission db1 session_id form_id
      (fun s => { s with status := "completed", completed_at := some now })
  else db1

/-- Lines 484-504: the trailing session writes followed by returning the
assembled response. -/
def finishRender (db : DB) (session_id : String) (form_id : Nat) (rendered_page : PageRow)
    (response : FormRenderResponse) (now : Nat) :
    Except RenderError (FormRenderResponse × DB) :=
  .ok (response, finishDB db session_id form_id rendered_page response now)

/-- `FormRendererService.render_form`.  `current_answers_in` is the optional
in-flight answers dict of the caller; `now` stands for `datetime.now()`. -/
def render_form (db : DB) (form_id : Nat) (session_id : String)
    (current_answers_in : Option PyDict) (now : Nat) :
    Except RenderError (FormRenderResponse × DB) :=
  match db.forms.find? (fun f => f.id == form_id) with
  | none => .error (.formNotFound form_id)
  | some form =>
    let is_new_submission := (findSubmission db session_id form_id).isNone
    let db1 := getOrCreateSubmission db form_id session_id
    -- lines 91-109: merge persisted and in-flight answers
    let db_answers := get_current_answers db1 session_id
    let original_current_answers_passed := originalAnswersPassed current_answers_in
    let current_answers := mergedCurrentAnswers db_answers current_answers_in
    let submission := findSubmission db1 session_id form_id
    match resolveCurrentPage db1 form_id is_new_submission
        (submission.bind (fun s => s.current_page_id)) with
    | none => .error .noPages
    | some current_page =>
      -- lines 150-169: page fields and the conditions targeting them
      let fields := sortStable fieldOrderLe
        (db1.fields.filter (fun f => f.page_id == current_page.id))
      let all_field_conditions := db1.conditions.filter
        (fun c => fields.any (fun f => f.id == c.target_field_id))
      -- lines 171-194: evaluation answers with page and form-wide defaults
      let cea1 := fields.foldl (fun cea field =>
        if dmem cea field.name then cea
        else match field.default_value with
          | some dv => if dv != "" then dinsertNew cea field.name (some (.vStr dv))
                       else dinsertNew cea field.name (some (.vStr ""))
          | none => dinsertNew cea field.name (some (.vStr ""))) current_answers
      let form_pages := db1.pages.filter (fun p => p.form_id == form_id)
      let all_form_fields := db1.fields.filter
        (fun f => form_pages.any (fun p => p.id == f.page_id))
      let condition_evaluation_answers := all_form_fields.foldl (fun cea f =>
        if dmem cea f.name then cea
        else match f.default_value with
          | some dv => if dv != "" then dinsertNew cea f.name (some (.vStr dv)) else cea
          | none => cea) cea1
      -- lines 266-307: total order, navigation, progress
      let sorted_pages := sortStable pageTotalLe form_pages
      let current_page_index := (sorted_pages.findIdx? (fun p => p.id == current_page.id)).getD 0
      let navigation_rules := db1.nav_rules.filter (fun r => r.page_id == current_page.id)
      let navigation_answers := dmerge db_answers current_answers
      let next_page_id := nextPageWithFallback sorted_pages current_page_index
        current_page.id navigation_rules navigation_answers
      let total_pages := sorted_pages.length
      let progress := progressOf total_pages current_page_index
      let response := assembleResponse form current_page fields all_field_conditions
        condition_evaluation_answers current_answers next_page_id progress
      -- lines 320-359: decide whether rendering advances to the next page
      let should_advance := shouldAdvance db_answers fields next_page_id
        is_new_submission original_current_answers_passed
      if should_advance then
        -- lines 361-482: advance the pointer and re-render the next page
        let db2 := dbUpdateSubmission db1 session_id form_id
          (fun s => { s with current_page_id := next_page_id })
        match db2.pages.find? (fun p => some p.id == next_page_id && p.form_id == form_id) with
        | some next_page =>
          let fields2 := sortStable fieldOrderLe
            (db2.fields.filter (fun f => f.page_id == next_page.id))
          let conds2 := db2.conditions.filter
            (fun c => fields2.any (fun f => f.id == c.target_field_id))
          let idx2 := (sorted_pages.findIdx? (fun p => p.id == next_page.id)).getD 0
          let rules2 := db2.nav_rules.filter (fun r => r.page_id == next_page.id)
          let next2 := nextPageWithFallback sorted_pages idx2 next_page.id rules2 db_answers
          let progress2 := progressOf total_pages idx2
          let response2 := assembleResponse form next_page fields2 conds2
            condition_evaluation_answers db_answers next2 progress2
          finishRender db2 session_id form_id next_page response2 now
        | none =>
          finishRender db2 session_id form_id current_page response now
      else
        finishRender db1 session_id form_id current_page response now

/-- `Except.isOk` spelled out for the render result. -/
def renderIsOk : Except RenderError (FormRenderResponse × DB) → Bool
  | .ok _ => true
  | .error _ => false

/-! ## Result accessors used by concrete theorems -/

/-- The rendered page id of a successful render. -/
def renderPageIdOf : Except RenderError (FormRenderResponse × DB) → Option Nat
  | .ok (r, _) => some r.current_page.id
  | .error _ => none

/-- The `next_page_id` of a successful render. -/
def renderNextOf : Except RenderError (FormRenderResponse × DB) → Option (Option Nat)
  | .ok (r, _) => some r.next_page_id
  | .error _ => none

/-- The `is_complete` of a successful render. -/
def renderCompleteOf : Except RenderError (FormRenderResponse × DB) → Option Bool
  | .ok (r, _) => some r.is_complete
  | .error _ => none

/-- The persisted session pointer after a successful render. -/
def renderPointerOf (e : Except RenderError (FormRenderResponse × DB)) (session_id : String)
    (form_id : Nat) : Option (Option Nat) :=
  match e with
  | .ok (_, d) => (findSubmission d session_id form_id).map (fun s => s.current_page_id)
  | .error _ => none

/-- A junk response used by `okOrFallback` on the (never exercised) error side. -/
def fallbackResponse : FormRenderResponse :=
  { form_id := 0, form_title := "",
    current_page := { id := 0, title := "", order := 0, is_first := false, fields := [] },
    next_page_id := none, is_complete := false, progress := 0 }

/-- Extract the payload of a successful render (fallback pair on error). -/
def okOrFallback (db : DB) : Except RenderError (FormRenderResponse × DB) →
    FormRenderResponse × DB
  | .ok p => p
  | .error _ => (fallbackResponse, db)

/-! ## Engine lemmas -/

theorem applyCondition_requireFlag (answers : PyDict) (acc : FieldConditionResult)
    (c : FieldCondition) :
    (applyCondition answers acc c).requireFlag =
      (acc.requireFlag || (condMet answers c && c.action == .REQUIRE)) := by
  unfold applyCondition
  cases h : condMet answers c
  · simp
  · cases hact : c.action <;> simp [hact]

theorem condFold_requireFlag (answers : PyDict) (l : List FieldCondition)
    (acc : FieldConditionResult) :
    (l.foldl (applyCondition answers) acc).requireFlag =
      (acc.requireFlag || l.any (fun c => condMet answers c && c.action == .REQUIRE)) := by
  induction l generalizing acc with
  | nil => simp
  | cons c rest ih =>
    simp only [List.foldl_cons, List.any_cons, ih, applyCondition_requireFlag, Bool.or_assoc]

/-- Claim C10: the resolved require flag is exactly the presence of a
`require` condition in the set, independently of the answer map. -/
theorem require_flag_is_presence (field_id : Nat) (conditions : List FieldCondition)
    (answers answers2 : PyDict) :
    (evaluate_field_conditions field_id conditions answers).requireFlag =
      conditions.any (fun c => c.action == .REQUIRE)
    ∧ (evaluate_field_conditions field_id conditions answers).requireFlag =
      (evaluate_field_conditions field_id conditions answers2).requireFlag := by
  have key : ∀ (a : PyDict),
      (evaluate_field_conditions field_id conditions a).requireFlag =
        conditions.any (fun c => c.action == .REQUIRE) := by
    intro a
    unfold evaluate_field_conditions
    rw [condFold_requireFlag]
    have base : ∀ (b : Bool),
        (if b then
          { showFlag := false, hideFlag := true,
            enableFlag := !conditions.any (fun c => c.action == .DISABLE),
            disableFlag := conditions.any (fun c => c.action == .DISABLE),
            requireFlag := conditions.any (fun c => c.action == .REQUIRE),
            skipFlag := conditions.any (fun c => c.action == .SKIP) }
        else
          { showFlag := true, hideFlag := false,
            enableFlag := !conditions.any (fun c => c.action == .DISABLE),
            disableFlag := conditions.any (fun c => c.action == .DISABLE),
            requireFlag := conditions.any (fun c => c.action == .REQUIRE),
            skipFlag := conditions.any (fun c => c.action == .SKIP) } :
          FieldConditionResult).requireFlag =
          conditions.any (fun c => c.action == .REQUIRE) := by
      intro b; cases b <;> rfl
    rw [base]
    cases hx : conditions.any (fun c => condMet a c && c.action == .REQUIRE)
    · simp
    · have : conditions.any (fun c => c.action == .REQUIRE) = true := by
        rw [List.any_eq_true] at hx ⊢
        obtain ⟨c, hc, hcc⟩ := hx
        exact ⟨c, hc, (Bool.and_eq_true _ _ |>.mp hcc).2⟩
      simp [this]
  exact ⟨key answers, by rw [key answers, key answers2]⟩

/-- Claim C3: a null observed value fails every operator except `is_empty`
(and `is_empty`/`is_not_empty` depend only on the observed value's
emptiness, not on the literal). -/
theorem null_observed_fail_closed :
    (∀ (op : ConditionOperator) (lit : String), op ≠ .IS_EMPTY →
      evaluate_operator op none lit = false)
    ∧ (∀ (v : Option Value) (lit lit2 : String),
        evaluate_operator .IS_EMPTY v lit = pyIsEmptyOpt v
        ∧ evaluate_operator .IS_NOT_EMPTY v lit = !pyIsEmptyOpt v
        ∧ evaluate_operator .IS_EMPTY v lit = evaluate_operator .IS_EMPTY v lit2
        ∧ evaluate_operator .IS_NOT_EMPTY v lit = evaluate_operator .IS_NOT_EMPTY v lit2) := by
  constructor
  · intro op lit h
    cases op <;> first
      | rfl
      | exact absurd rfl h
  · intro v lit lit2
    cases v <;> exact ⟨rfl, rfl, rfl, rfl⟩

/-- Claim C7: operator evaluation always yields a boolean; for the numeric
operators a float-parse failure on either side yields `false`. -/
theorem operator_evaluation_total :
    (∀ (op : ConditionOperator) (v : Option Value) (lit : String),
      evaluate_operator op v lit = true ∨ evaluate_operator op v lit = false)
    ∧ (∀ (op : ConditionOperator) (v : Value) (lit : String),
        (op = .GREATER_THAN ∨ op = .LESS_THAN ∨ op = .GREATER_EQUAL ∨ op = .LESS_EQUAL) →
        (pyFloatOfValue v = none ∨ parsePyFloat lit = none) →
        evaluate_operator op (some v) lit = false) := by
  constructor
  · intro op v lit
    cases h : evaluate_operator op v lit
    · exact Or.inr rfl
    · exact Or.inl rfl
  · intro op v lit hop hparse
    have main : ∀ (o : ConditionOperator),
        (o = .GREATER_THAN ∨ o = .LESS_THAN ∨ o = .GREATER_EQUAL ∨ o = .LESS_EQUAL) →
        evaluate_operator o (some v) lit = false := by
      intro o ho
      rcases ho with h | h | h | h <;> subst h <;>
        · show (match pyFloatOfValue v, parsePyFloat lit with
            | some field_num, some condition_num => _
            | _, _ => false) = false
          rcases hparse with hp | hp <;> rw [hp] <;>
            first
              | rfl
              | (cases pyFloatOfValue v <;> rfl)
              | (cases parsePyFloat lit <;> rfl)
    exact main op hop

/-- A condition that affects visibility (`show`/`hide`) and whose predicate
holds under the given answers. -/
def visMet (answers : PyDict) (c : FieldCondition) : Bool :=
  (c.action == .SHOW || c.action == .HIDE) && condMet answers c

/-- The last visibility-affecting condition in the list whose predicate holds
(the one whose overwrite survives the evaluation loop). -/
def lastVisMet (answers : PyDict) : List FieldCondition → Option FieldCondition
  | [] => none
  | c :: rest =>
    match lastVisMet answers rest with
    | some d => some d
    | none => if visMet answers c then some c else none

theorem applyCondition_vis (answers : PyDict) (acc : FieldConditionResult)
    (c : FieldCondition) :
    ((applyCondition answers acc c).showFlag, (applyCondition answers acc c).hideFlag) =
      if visMet answers c then ((c.action == .SHOW), (c.action == .HIDE))
      else (acc.showFlag, acc.hideFlag) := by
  unfold applyCondition visMet
  cases h : condMet answers c
  · simp
  · cases hact : c.action <;> simp [hact]

theorem condFold_vis (answers : PyDict) (l : List FieldCondition)
    (acc : FieldConditionResult) :
    ((l.foldl (applyCondition answers) acc).showFlag,
      (l.foldl (applyCondition answers) acc).hideFlag) =
      match lastVisMet answers l with
      | some c => ((c.action == .SHOW), (c.action == .HIDE))
      | none => (acc.showFlag, acc.hideFlag) := by
  induction l generalizing acc with
  | nil => rfl
  | cons c rest ih =>
    simp only [List.foldl_cons, lastVisMet]
    rw [ih]
    cases h : lastVisMet answers rest
    · rw [applyCondition_vis]
      cases hv : visMet answers c <;> simp
    · rfl

/-- Characterization of the show/hide flags computed by
`evaluate_field_conditions`: the last surviving visibility overwrite, or the
baseline when no visibility condition matched. -/
theorem efc_vis (field_id : Nat) (conditions : List FieldCondition) (answers : PyDict) :
    ((evaluate_field_conditions field_id conditions answers).showFlag,
      (evaluate_field_conditions field_id conditions answers).hideFlag) =
      match lastVisMet answers conditions with
      | some c => ((c.action == .SHOW), (c.action == .HIDE))
      | none =>
        if conditions.any (fun c => c.action == .SHOW) &&
            !(conditions.any (fun c => c.action == .HIDE)) then
          (false, true)
        else (true, false) := by
  simp only [evaluate_field_conditions]
  rw [condFold_vis]
  cases h : lastVisMet answers conditions
  · cases hb : conditions.any (fun c => c.action == .SHOW) &&
      !(conditions.any (fun c => c.action == .HIDE)) <;> simp [hb]
  · cases hb : conditions.any (fun c => c.action == .SHOW) &&
      !(conditions.any (fun c => c.action == .HIDE)) <;> simp [hb]

/-- Claim C2: the visibility baseline is established before any condition is
evaluated (hidden only when `show` conditions exist and `hide` conditions do
not); a true condition overwrites the flags (the last surviving overwrite
wins); no conditions yield the fully visible, enabled, not-required state;
and the exposed visibility is `show AND NOT hide`. -/
theorem field_visibility_resolution (field_id : Nat) (conditions : List FieldCondition)
    (answers : PyDict) :
    (evaluate_field_conditions field_id [] answers =
      { showFlag := true, hideFlag := false, enableFlag := true, disableFlag := false,
        requireFlag := false, skipFlag := false })
    ∧ (lastVisMet answers conditions = none →
        (evaluate_field_conditions field_id conditions answers).showFlag =
          !(conditions.any (fun c => c.action == .SHOW) &&
            !(conditions.any (fun c => c.action == .HIDE)))
        ∧ (evaluate_field_conditions field_id conditions answers).hideFlag =
          (conditions.any (fun c => c.action == .SHOW) &&
            !(conditions.any (fun c => c.action == .HIDE))))
    ∧ (∀ c, lastVisMet answers conditions = some c →
        (evaluate_field_conditions field_id conditions answers).showFlag = (c.action == .SHOW)
        ∧ (evaluate_field_conditions field_id conditions answers).hideFlag = (c.action == .HIDE))
    ∧ should_field_be_visible field_id conditions answers =
        ((evaluate_field_conditions field_id conditions answers).showFlag &&
          !(evaluate_field_conditions field_id conditions answers).hideFlag) := by
  refine ⟨rfl, ?_, ?_, ?_⟩
  · intro hnone
    have h := efc_vis field_id conditions answers
    rw [hnone] at h
    have h1 := congrArg Prod.fst h
    have h2 := congrArg Prod.snd h
    cases hb : conditions.any (fun c => c.action == .SHOW) &&
        !(conditions.any (fun c => c.action == .HIDE)) <;>
      rw [hb] at h1 h2 <;> exact ⟨h1, h2⟩
  · intro c hsome
    have h := efc_vis field_id conditions answers
    rw [hsome] at h
    exact ⟨congrArg Prod.fst h, congrArg Prod.snd h⟩
  · unfold should_field_be_visible
    cases hc : conditions with
    | nil => rfl
    | cons a rest => rfl

/-- `any` over a mapped list (the library version of this fact is unusable
here as its statement forces `f : α → α`). -/
theorem listAnyMap {α β : Type} (l : List α) (f : α → β) (p : β → Bool) :
    (l.map f).any p = l.any (fun x => p (f x)) := by
  induction l with
  | nil => rfl
  | cons a t ih => simp [ih]

/-! ## Navigation lemmas -/

theorem detLoop_append_nondefault (answers : PyDict) (l1 l2 : List NavRule)
    (h : ∀ r ∈ l1, r.is_default = false) :
    detLoop answers (l1 ++ l2) =
      match l1.find? (navRuleMatches answers) with
      | some r => r.target_page_id
      | none => detLoop answers l2 := by
  induction l1 with
  | nil => rfl
  | cons r rest ih =>
    have hr : r.is_default = false := h r (List.mem_cons_self r rest)
    have hrest : ∀ x ∈ rest, x.is_default = false :=
      fun x hx => h x (List.mem_cons_of_mem r hx)
    simp only [List.cons_append, detLoop, hr, List.find?_cons]
    cases hm : navRuleMatches answers r
    · simpa using ih hrest
    · simp

theorem detLoop_default_head (answers : PyDict) (d : NavRule) (rest : List NavRule)
    (h : d.is_default = true) :
    detLoop answers (d :: rest) = d.target_page_id := by
  simp only [detLoop, h]
  rfl

/-- Characterization of `determine_next_page`: the first matching
non-default rule's target, else the first default rule's target, else
`none`. -/
theorem determine_next_page_spec (current_page_id : Nat) (rules : List NavRule)
    (answers : PyDict) :
    determine_next_page current_page_id rules answers =
      match (rules.filter (fun r => !r.is_default)).find? (navRuleMatches answers) with
      | some r => r.target_page_id
      | none =>
        match (rules.filter (fun r => r.is_default)).head? with
        | some d => d.target_page_id
        | none => none := by
  unfold determine_next_page
  rw [detLoop_append_nondefault answers _ _
    (fun r hr => by simpa using (List.mem_filter.mp hr).2)]
  cases hf : (rules.filter (fun r => !r.is_default)).find? (navRuleMatches answers)
  · cases hd : (rules.filter (fun r => r.is_default)).head? with
    | none =>
      have : rules.filter (fun r => r.is_default) = [] := by
        cases hl : rules.filter (fun r => r.is_default)
        · rfl
        · rw [hl] at hd; cases hd
      rw [this]; rfl
    | some d =>
      obtain ⟨l', hl'⟩ : ∃ l', rules.filter (fun r => r.is_default) = d :: l' := by
        cases hl : rules.filter (fun r => r.is_default) with
        | nil => rw [hl] at hd; cases hd
        | cons a t => rw [hl] at hd; cases hd; exact ⟨t, rfl⟩
      rw [hl']
      have hd_def : d.is_default = true := by
        have : d ∈ rules.filter (fun r => r.is_default) := by
          rw [hl']; exact List.mem_cons_self d l'
        exact (List.mem_filter.mp this).2
      rw [detLoop_default_head answers d l' hd_def]
  · rfl

/-- Claim C1: `determine_next_page` returns the target of the first matching
non-default rule in stored order (a rule with no source field never matches),
else the first default rule's target, else `none`; and the caller's
resolution falls back to the sequential successor exactly when the engine
returns `none`, a page with no rules going sequentially at once. -/
theorem navigation_rule_resolution (current_page_id : Nat) (rules : List NavRule)
    (answers : PyDict) (pages : List PageRow) (idx : Nat) :
    (determine_next_page current_page_id rules answers =
      match (rules.filter (fun r => !r.is_default)).find? (navRuleMatches answers) with
      | some r => r.target_page_id
      | none =>
        match (rules.filter (fun r => r.is_default)).head? with
        | some d => d.target_page_id
        | none => none)
    ∧ (∀ r : NavRule, r.source_field_id = none → navRuleMatches answers r = false)
    ∧ (rules = [] →
        nextPageWithFallback pages idx current_page_id rules answers = seqNextPageId pages idx)
    ∧ (determine_next_page current_page_id rules answers = none →
        nextPageWithFallback pages idx current_page_id rules answers =
          seqNextPageId pages idx) := by
  refine ⟨determine_next_page_spec current_page_id rules answers, ?_, ?_, ?_⟩
  · intro r hr
    unfold navRuleMatches
    rw [hr]
    rfl
  · intro h
    subst h
    rfl
  · intro h
    unfold nextPageWithFallback
    rw [h]
    cases hr : rules.isEmpty <;> simp

/-- Claim C8 (amended): when no non-default rule matches, the engine returns
the first default rule's target; when that target is absent the engine's
result is `none`, indistinguishable from the unresolved case, so the caller
applies the sequential fallback even though the default rule declared the
page terminal. -/
theorem default_rule_absent_target_falls_back (current_page_id : Nat)
    (rules : List NavRule) (answers : PyDict) (pages : List PageRow) (idx : Nat)
    (d : NavRule)
    (hnm : ∀ r ∈ rules.filter (fun r => !r.is_default), navRuleMatches answers r = false)
    (hd : (rules.filter (fun r => r.is_default)).head? = some d) :
    determine_next_page current_page_id rules answers = d.target_page_id
    ∧ (d.target_page_id = none →
        nextPageWithFallback pages idx current_page_id rules answers =
          seqNextPageId pages idx) := by
  have hfind : (rules.filter (fun r => !r.is_default)).find? (navRuleMatches answers) = none :=
    List.find?_eq_none.mpr (fun r hr => by rw [hnm r hr]; simp)
  have hchar := determine_next_page_spec current_page_id rules answers
  rw [hfind, hd] at hchar
  have hchar2 : determine_next_page current_page_id rules answers = d.target_page_id := hchar
  refine ⟨hchar2, ?_⟩
  intro htgt
  have hne : rules ≠ [] := by
    intro hnil
    rw [hnil] at hd
    cases hd
  have hempty : rules.isEmpty = false := by
    cases hrl : rules
    · exact absurd hrl hne
    · rfl
  unfold nextPageWithFallback
  rw [hempty, hchar2, htgt]
  simp

/-! ## Spec-side comparison semantics for the string family (claim C6)

These definitions follow the words of the spec (§4.1): a case-insensitive
comparison performed *after stringifying the observed value*. -/

/-- Spec-side `equals`: case-insensitive comparison of the stringified
observed value against the literal. -/
def specEqualsCI (v : Value) (lit : String) : Bool :=
  pyLower (pyStr v) == pyLower lit

/-- Spec-side `contains`: case-insensitive substring test of the literal in
the stringified observed value. -/
def specContainsCI (v : Value) (lit : String) : Bool :=
  charListSub (pyLower lit).data (pyLower (pyStr v)).data

/-- The `in`/`not_in` membership set: split on commas, trim, lower-case. -/
def splitTrimLower (lit : String) : List String :=
  (pySplitComma lit).map (fun x => pyLower (pyStrip x))

/-- Counterexample to claim C6 as stated: for an *array* observed value the
code stringifies without lower-casing (condition_engine.py line 26), so the
comparison is not case-insensitive: `contains` on observed `["A"]` with
literal `"A"` is `false`, although the case-insensitive comparison of the
stringified value (the spec's reading, covering "scalar or array") holds. -/
theorem array_case_sensitivity_counterexample :
    evaluate_operator .CONTAINS (some (.vList [.vStr "A"])) "A" = false
    ∧ specContainsCI (.vList [.vStr "A"]) "A" = true := by
  exact ⟨by decide, by decide⟩

/-- Claim C6 (amended): the string-family operators are case-insensitive for
*scalar* observed values (strings, numbers, booleans), which are lower-cased
after stringification — an array observed value is stringified without
lower-casing; `in`/`not_in` split the literal on commas, trim, lower-case
and test membership; scenarios A and B hold. -/
theorem string_family_case_insensitive_scalars (v : Value) (lit : String)
    (h : isScalarValue v = true) :
    (evaluate_operator .EQUALS (some v) lit = specEqualsCI v lit
    ∧ evaluate_operator .NOT_EQUALS (some v) lit = !specEqualsCI v lit
    ∧ evaluate_operator .CONTAINS (some v) lit = specContainsCI v lit
    ∧ evaluate_operator .NOT_CONTAINS (some v) lit = !specContainsCI v lit
    ∧ evaluate_operator .IN (some v) lit = (splitTrimLower lit).contains (pyLower (pyStr v))
    ∧ evaluate_operator .NOT_IN (some v) lit =
        !((splitTrimLower lit).contains (pyLower (pyStr v))))
    ∧ evaluate_operator .EQUALS (some (.vStr "NEW")) "new" = true
    ∧ evaluate_operator .IN (some (.vStr "b")) "a, b, c" = true := by
  have hcond : (if lit != "" then pyLower lit else "") = pyLower lit := by
    cases hl : lit == ""
    · simp [bne, hl]
    · have hlit : lit = "" := by simpa using hl
      subst hlit
      decide
  have hfield : (if isScalarValue v then pyLower (pyStr v) else pyStr v) = pyLower (pyStr v) := by
    rw [h]
    simp
  refine ⟨⟨?_, ?_, ?_, ?_, ?_, ?_⟩, by decide, by decide⟩
  · show ((if isScalarValue v then pyLower (pyStr v) else pyStr v) ==
        (if lit != "" then pyLower lit else "")) = specEqualsCI v lit
    rw [hfield, hcond]
    rfl
  · show ((if isScalarValue v then pyLower (pyStr v) else pyStr v) !=
        (if lit != "" then pyLower lit else "")) = !specEqualsCI v lit
    rw [hfield, hcond]
    rfl
  · show charListSub (if lit != "" then pyLower lit else "").data
        (if isScalarValue v then pyLower (pyStr v) else pyStr v).data = specContainsCI v lit
    rw [hfield, hcond]
    rfl
  · show (!charListSub (if lit != "" then pyLower lit else "").data
        (if isScalarValue v then pyLower (pyStr v) else pyStr v).data) = !specContainsCI v lit
    rw [hfield, hcond]
    rfl
  · show ((pySplitComma lit).map (fun x => pyLower (pyStrip x))).contains
        (if isScalarValue v then pyLower (pyStr v) else pyStr v) =
        (splitTrimLower lit).contains (pyLower (pyStr v))
    rw [hfield]
    rfl
  · show (!((pySplitComma lit).map (fun x => pyLower (pyStrip x))).contains
        (if isScalarValue v then pyLower (pyStr v) else pyStr v)) =
        !((splitTrimLower lit).contains (pyLower (pyStr v)))
    rw [hfield]
    rfl

/-! ## Session-row tracking lemmas -/

theorem find?_updateSubList (session_id : String) (form_id : Nat)
    (f : SubmissionRow → SubmissionRow) (l : List SubmissionRow)
    (hf : ∀ s, (f s).session_id = s.session_id ∧ (f s).form_id = s.form_id) :
    (updateSubList session_id form_id f l).find?
        (fun s => s.session_id == session_id && s.form_id == form_id) =
      (l.find? (fun s => s.session_id == session_id && s.form_id == form_id)).map f := by
  induction l with
  | nil => rfl
  | cons s rest ih =>
    by_cases hp : (s.session_id == session_id && s.form_id == form_id) = true
    · simp only [updateSubList, hp, if_pos, List.find?_cons]
      have hp' : ((f s).session_id == session_id && (f s).form_id == form_id) = true := by
        rw [(hf s).1, (hf s).2]
        exact hp
      simp [hp, hp']
    · have hp' : (s.session_id == session_id && s.form_id == form_id) = false := by
        cases hb : (s.session_id == session_id && s.form_id == form_id)
        · rfl
        · exact absurd hb hp
      simp only [updateSubList, hp', List.find?_cons]
      simp [hp', ih]

theorem findSubmission_dbUpdate (db : DB) (session_id : String) (form_id : Nat)
    (f : SubmissionRow → SubmissionRow)
    (hf : ∀ s, (f s).session_id = s.session_id ∧ (f s).form_id = s.form_id) :
    findSubmission (dbUpdateSubmission db session_id form_id f) session_id form_id =
      (findSubmission db session_id form_id).map f := by
  unfold findSubmission dbUpdateSubmission
  exact find?_updateSubList session_id form_id f db.submissions hf

theorem findSubmission_getOrCreate_isSome (db : DB) (form_id : Nat) (session_id : String) :
    (findSubmission (getOrCreateSubmission db form_id session_id)
      session_id form_id).isSome = true := by
  unfold getOrCreateSubmission
  split
  next hf =>
    show (List.find? _ (db.submissions ++ [_])).isSome = true
    rw [List.find?_append]
    unfold findSubmission at hf
    rw [hf]
    simp
  next s hf =>
    simp only []
    split
    · rw [findSubmission_dbUpdate db session_id form_id
        (fun s => { s with current_page_id := none }) (fun s => ⟨rfl, rfl⟩), hf]
      rfl
    · rw [hf]
      rfl

theorem finishDB_spec (db : DB) (session_id : String) (form_id : Nat) (page : PageRow)
    (resp : FormRenderResponse) (now : Nat)
    (hsub : (findSubmission db session_id form_id).isSome = true) :
    ∃ s, findSubmission (finishDB db session_id form_id page resp now) session_id form_id = some s
      ∧ s.current_page_id = some page.id
      ∧ (resp.is_complete = true → s.status = "completed" ∧ s.completed_at = some now) := by
  obtain ⟨s0, hs0⟩ := Option.isSome_iff_exists.mp hsub
  unfold finishDB
  simp only []
  rw [hs0]
  simp only [Option.some_bind]
  have hstep1 : ∃ s1, findSubmission
      (if (!pyTruthyOptNat s0.current_page_id || (s0.current_page_id != some page.id)) = true then
        dbUpdateSubmission db session_id form_id
          (fun s => { s with current_page_id := some page.id })
      else db) session_id form_id = some s1 ∧ s1.current_page_id = some page.id := by
    split
    · rw [findSubmission_dbUpdate db session_id form_id
        (fun s => { s with current_page_id := some page.id }) (fun s => ⟨rfl, rfl⟩), hs0]
      exact ⟨_, rfl, rfl⟩
    · next hguard =>
      have hguard' : (!pyTruthyOptNat s0.current_page_id ||
          (s0.current_page_id != some page.id)) = false := by
        cases hb : (!pyTruthyOptNat s0.current_page_id ||
            (s0.current_page_id != some page.id))
        · rfl
        · exact absurd hb hguard
      have h2 : s0.current_page_id = some page.id := by
        have := (Bool.or_eq_false_iff.mp hguard').2
        simpa using this
      exact ⟨s0, hs0, h2⟩
  obtain ⟨s1, hs1, hp1⟩ := hstep1
  cases hic : resp.is_complete
  · refine ⟨s1, ?_, hp1, ?_⟩
    · exact hs1
    · intro hcontra
      cases hcontra
  · refine ⟨{ s1 with status := "completed", completed_at := some now }, ?_, hp1, ?_⟩
    · show findSubmission (dbUpdateSubmission
          (if (!pyTruthyOptNat s0.current_page_id ||
              (s0.current_page_id != some page.id)) = true then
            dbUpdateSubmission db session_id form_id
              (fun s => { s with current_page_id := some page.id })
          else db) session_id form_id
          (fun s => { s with status := "completed", completed_at := some now }))
        session_id form_id = some { s1 with status := "completed", completed_at := some now }
      rw [findSubmission_dbUpdate _ session_id form_id
        (fun s => { s with status := "completed", completed_at := some now })
        (fun s => ⟨rfl, rfl⟩), hs1]
      rfl
    · intro _
      exact ⟨rfl, rfl⟩

theorem finishRender_spec (db : DB) (session_id : String) (form_id : Nat) (page : PageRow)
    (resp : FormRenderResponse) (now : Nat) (r : FormRenderResponse) (d' : DB)
    (hsub : (findSubmission db session_id form_id).isSome = true)
    (h : finishRender db session_id form_id page resp now = .ok (r, d')) :
    r = resp ∧ ∃ s, findSubmission d' session_id form_id = some s
      ∧ s.current_page_id = some page.id
      ∧ (resp.is_complete = true → s.status = "completed" ∧ s.completed_at = some now) := by
  have hinj := Except.ok.inj h
  have hr : resp = r := congrArg Prod.fst hinj
  have hd : finishDB db session_id form_id page resp now = d' := congrArg Prod.snd hinj
  subst hr
  subst hd
  exact ⟨rfl, finishDB_spec db session_id form_id page resp now hsub⟩

/-! ## Render-level lemmas -/

/-- The assembled response satisfies: complete iff no next page and some
rendered field carries a non-empty current value. -/
theorem assembleResponse_is_complete (form : FormRow) (page : PageRow)
    (fields : List FieldRow) (conds : List FieldCondition) (cea ans : PyDict)
    (next : Option Nat) (prog : ℚ) :
    (assembleResponse form page fields conds cea ans next prog).is_complete =
      ((assembleResponse form page fields conds cea ans next prog).next_page_id.isNone &&
       (assembleResponse form page fields conds cea ans next prog).current_page.fields.any
         (fun rf => isAnsweredVal rf.current_value)) := by
  simp only [assembleResponse, pageHasAnswers]
  congr 1
  rw [listAnyMap]
  rfl

theorem findSubmission_dbUpdate_isSome (db : DB) (session_id : String) (form_id : Nat)
    (f : SubmissionRow → SubmissionRow)
    (hf : ∀ s, (f s).session_id = s.session_id ∧ (f s).form_id = s.form_id) :
    (findSubmission (dbUpdateSubmission db session_id form_id f) session_id form_id).isSome =
      (findSubmission db session_id form_id).isSome := by
  rw [findSubmission_dbUpdate db session_id form_id f hf]
  cases findSubmission db session_id form_id <;> rfl

theorem render_form_ok_master (db : DB) (form_id : Nat) (session_id : String)
    (current_answers_in : Option PyDict) (now : Nat) (r : FormRenderResponse) (d' : DB)
    (h : render_form db form_id session_id current_answers_in now = .ok (r, d')) :
    r.is_complete = (r.next_page_id.isNone &&
      r.current_page.fields.any (fun rf => isAnsweredVal rf.current_value))
    ∧ ∃ s, findSubmission d' session_id form_id = some s
        ∧ s.current_page_id = some r.current_page.id
        ∧ (r.is_complete = true → s.status = "completed" ∧ s.completed_at = some now) := by
  unfold render_form at h
  cases hform : db.forms.find? (fun f => f.id == form_id) with
  | none => rw [hform] at h; exact absurd h (by simp)
  | some form =>
    rw [hform] at h
    split at h
    next hres => exact absurd h (by simp)
    next page hres =>
      simp only [] at h
      split at h
      next hcp => exact absurd h (by simp)
      next current_page hcp =>
        split at h
        · split at h
          next next_page hnp =>
            obtain ⟨hreq, s, hs, hcp2, hstat⟩ := finishRender_spec _ _ _ _ _ _ _ _
              (by rw [findSubmission_dbUpdate_isSome]
                  · exact findSubmission_getOrCreate_isSome db form_id session_id
                  · exact fun s => ⟨rfl, rfl⟩) h
            subst hreq
            exact ⟨assembleResponse_is_complete _ _ _ _ _ _ _ _, ⟨s, hs, hcp2, hstat⟩⟩
          next hnp =>
            obtain ⟨hreq, s, hs, hcp2, hstat⟩ := finishRender_spec _ _ _ _ _ _ _ _
              (by rw [findSubmission_dbUpdate_isSome]
                  · exact findSubmission_getOrCreate_isSome db form_id session_id
                  · exact fun s => ⟨rfl, rfl⟩) h
            subst hreq
            exact ⟨assembleResponse_is_complete _ _ _ _ _ _ _ _, ⟨s, hs, hcp2, hstat⟩⟩
        · obtain ⟨hreq, s, hs, hcp2, hstat⟩ := finishRender_spec _ _ _ _ _ _ _ _
            (findSubmission_getOrCreate_isSome db form_id session_id) h
          subst hreq
          exact ⟨assembleResponse_is_complete _ _ _ _ _ _ _ _, ⟨s, hs, hcp2, hstat⟩⟩

theorem insertLe_length {α : Type} (le : α → α → Bool) (x : α) (l : List α) :
    (insertLe le x l).length = l.length + 1 := by
  induction l with
  | nil => rfl
  | cons y ys ih =>
    unfold insertLe
    split
    · rfl
    · simp [ih]

theorem sortStable_length {α : Type} (le : α → α → Bool) (l : List α) :
    (sortStable le l).length = l.length := by
  induction l with
  | nil => rfl
  | cons x xs ih =>
    show (insertLe le x (sortStable le xs)).length = xs.length + 1
    rw [insertLe_length, ih]

theorem sortStable_eq_nil_iff {α : Type} (le : α → α → Bool) (l : List α) :
    sortStable le l = [] ↔ l = [] := by
  constructor
  · intro h
    have := sortStable_length le l
    rw [h] at this
    exact List.length_eq_zero.mp this.symm
  · intro h
    rw [h]
    rfl

theorem resolveCurrentPage_none_iff (db : DB) (form_id : Nat) (is_new : Bool)
    (cpid : Option Nat) :
    resolveCurrentPage db form_id is_new cpid = none ↔
      db.pages.filter (fun p => p.form_id == form_id) = [] := by
  unfold resolveCurrentPage
  simp only []
  constructor
  · intro h
    split at h
    next hfp => exact absurd h (by simp)
    next hfp =>
      split at h
      next hf2 => exact absurd h (by simp)
      next hf2 =>
        have hnil := (List.head?_eq_none_iff).mp h
        exact (sortStable_eq_nil_iff _ _).mp hnil
  · intro hfilter
    have hfp : (if (!is_new && pyTruthyOptNat cpid) = true then
        db.pages.find? (fun p => some p.id == cpid && p.form_id == form_id)
      else none) = none := by
      split
      · cases hf : db.pages.find? (fun p => some p.id == cpid && p.form_id == form_id) with
        | none => rfl
        | some p =>
          have hmem := List.mem_of_find?_eq_some hf
          have hpred := List.find?_some hf
          have hform : (p.form_id == form_id) = true := (Bool.and_eq_true _ _ |>.mp hpred).2
          have : p ∈ db.pages.filter (fun p => p.form_id == form_id) :=
            List.mem_filter.mpr ⟨hmem, hform⟩
          rw [hfilter] at this
          cases this
      · rfl
    rw [hfp]
    have hf2 : db.pages.find? (fun p => p.form_id == form_id && p.is_first) = none := by
      cases hf : db.pages.find? (fun p => p.form_id == form_id && p.is_first) with
      | none => rfl
      | some p =>
        have hmem := List.mem_of_find?_eq_some hf
        have hpred := List.find?_some hf
        have hform : (p.form_id == form_id) = true := (Bool.and_eq_true _ _ |>.mp hpred).1
        have : p ∈ db.pages.filter (fun p => p.form_id == form_id) :=
          List.mem_filter.mpr ⟨hmem, hform⟩
        rw [hfilter] at this
        cases this
    rw [hf2]
    simp only []
    rw [hfilter]
    rfl


theorem getOrCreate_pages (db : DB) (form_id : Nat) (session_id : String) :
    (getOrCreateSubmission db form_id session_id).pages = db.pages := by
  unfold getOrCreateSubmission
  split
  · rfl
  · simp only []
    split <;> rfl

theorem renderIsOk_finishRender (db : DB) (session_id : String) (form_id : Nat)
    (page : PageRow) (resp : FormRenderResponse) (now : Nat) :
    renderIsOk (finishRender db session_id form_id page resp now) = true := rfl


/-! ## Concrete databases for the render-level claims -/

/-- Single-page form for claim C4 (scenario E): one page, one field, no
navigation rules, no conditions. -/
def c4page : PageRow := { id := 1, form_id := 1, title := "Only", order := 0, is_first := true }

def c4field : FieldRow :=
  { id := 1, page_id := 1, name := "q", order := 0, is_required := false,
    is_visible := true, default_value := none }

def c4dbEmpty : DB :=
  { forms := [{ id := 1, title := "F" }], pages := [c4page], fields := [c4field],
    conditions := [], nav_rules := [], submissions := [] }

/-- The same form with a session that has one non-empty persisted answer. -/
def c4dbAnswered : DB :=
  { c4dbEmpty with submissions :=
    [{ form_id := 1, session_id := "s", status := "in_progress", current_page_id := some 1,
        completed_at := none, answers := [("q", some (.vStr "hello"))] }] }

def c4resAnswered : FormRenderResponse × DB :=
  okOrFallback c4dbAnswered (render_form c4dbAnswered 1 "s" none 7)

/-- Claim C4: a render pass reports completion iff the resolved next page is
absent and some field of the rendered page carries a non-null, non-empty
answer; on completion the session is persisted as `completed` with a
completion timestamp; and on the single-page scenario: no answers give
`next_page_id = none` with `is_complete = false`, one non-empty answer gives
`is_complete = true`. -/
theorem render_completion_iff (db : DB) (form_id : Nat) (session_id : String)
    (current_answers_in : Option PyDict) (now : Nat) (r : FormRenderResponse) (d' : DB)
    (h : render_form db form_id session_id current_answers_in now = .ok (r, d')) :
    (r.is_complete = (r.next_page_id.isNone &&
      r.current_page.fields.any (fun rf => isAnsweredVal rf.current_value)))
    ∧ (r.is_complete = true → ∃ s, findSubmission d' session_id form_id = some s
        ∧ s.status = "completed" ∧ s.completed_at = some now)
    ∧ renderNextOf (render_form c4dbEmpty 1 "s" none 0) = some none
    ∧ renderCompleteOf (render_form c4dbEmpty 1 "s" none 0) = some false
    ∧ renderCompleteOf (render_form c4dbAnswered 1 "s" none 7) = some true := by
  have hm := render_form_ok_master db form_id session_id current_answers_in now r d' h
  obtain ⟨s, hs, hscp, hstat⟩ := hm.2
  exact ⟨hm.1,
    fun hic => ⟨s, hs, (hstat hic).1, (hstat hic).2⟩,
    rfl, rfl, rfl⟩

/-- Witness for C4 at the answered single-page database. -/
theorem render_completion_iff_witness :
    c4resAnswered.1.is_complete = (c4resAnswered.1.next_page_id.isNone &&
      c4resAnswered.1.current_page.fields.any (fun rf => isAnsweredVal rf.current_value)) :=
  (render_completion_iff c4dbAnswered 1 "s" none 7 c4resAnswered.1 c4resAnswered.2 rfl).1

/-- Two-page form for claim C5: session pointer on page 1, a non-empty
persisted answer on page 1, and no in-flight answers. -/
def c5p1 : PageRow := { id := 1, form_id := 1, title := "P1", order := 0, is_first := true }

def c5p2 : PageRow := { id := 2, form_id := 1, title := "P2", order := 1, is_first := false }

def c5f1 : FieldRow :=
  { id := 1, page_id := 1, name := "q", order := 0, is_required := false,
    is_visible := true, default_value := none }

def c5f2 : FieldRow :=
  { id := 2, page_id := 2, name := "r", order := 0, is_required := false,
    is_visible := true, default_value := none }

def c5db : DB :=
  { forms := [{ id := 1, title := "F" }], pages := [c5p1, c5p2], fields := [c5f1, c5f2],
    conditions := [], nav_rules := [],
    submissions := [
      { form_id := 1, session_id := "s", status := "in_progress",
        current_page_id := some 1, completed_at := none,
        answers := [("q", some (.vStr "x"))] }] }

def c5res : FormRenderResponse × DB := okOrFallback c5db (render_form c5db 1 "s" none 0)

/-- Counterexample to claim C5 as stated: the stored pointer is page 1 and
its field has a persisted answer, no in-flight answers are passed, yet the
render call returns page 2 (the sequential successor) and persists the
pointer as page 2 — rendering alone advanced the session pointer. -/
theorem render_advances_pointer_counterexample :
    c5db.submissions.map (fun s => s.current_page_id) = [some 1]
    ∧ originalAnswersPassed none = false
    ∧ renderPageIdOf (render_form c5db 1 "s" none 0) = some 2
    ∧ renderPointerOf (render_form c5db 1 "s" none 0) "s" 1 = some (some 2) :=
  ⟨rfl, rfl, rfl, rfl⟩

/-- Claim C5 (amended): every successful render persists the session pointer
as the page it actually rendered; but rendering is not read-only with respect
to progression — when no in-flight answers are passed and the pointed-to
page's fields have a non-empty persisted answer and a next page resolves and
exists, the render call itself advances to and renders the successor (shown
on the concrete two-page database). -/
theorem render_pointer_is_rendered_page (db : DB) (form_id : Nat) (session_id : String)
    (current_answers_in : Option PyDict) (now : Nat) (r : FormRenderResponse) (d' : DB)
    (h : render_form db form_id session_id current_answers_in now = .ok (r, d')) :
    (∃ s, findSubmission d' session_id form_id = some s
      ∧ s.current_page_id = some r.current_page.id)
    ∧ renderPageIdOf (render_form c5db 1 "s" none 0) = some 2
    ∧ renderPointerOf (render_form c5db 1 "s" none 0) "s" 1 = some (some 2) := by
  obtain ⟨s, hs, hscp, hstat⟩ :=
    (render_form_ok_master db form_id session_id current_answers_in now r d' h).2
  exact ⟨⟨s, hs, hscp⟩, rfl, rfl⟩

/-- Witness for the amended C5 at the concrete two-page database. -/
theorem render_pointer_is_rendered_page_witness :
    ∃ s, findSubmission c5res.2 "s" 1 = some s
      ∧ s.current_page_id = some c5res.1.current_page.id :=
  (render_pointer_is_rendered_page c5db 1 "s" none 0 c5res.1 c5res.2 rfl).1

/-- Two-page form for claim C8 whose first page carries a single *default*
navigation rule with an absent target page. -/
def c8p1 : PageRow := { id := 1, form_id := 1, title := "P1", order := 0, is_first := true }

def c8p2 : PageRow := { id := 2, form_id := 1, title := "P2", order := 1, is_first := false }

def c8rule : NavRule :=
  { page_id := 1, source_field_id := none, source_field_name := none,
    operator := .EQUALS, value := none, target_page_id := none, is_default := true }

def c8db : DB :=
  { forms := [{ id := 1, title := "F" }], pages := [c8p1, c8p2], fields := [],
    conditions := [], nav_rules := [c8rule], submissions := [] }

/-- Counterexample to claim C8 as stated: the only navigation rule of page 1
is a default rule with an absent target ("terminal"), yet the render call
returns `next_page_id = some 2` — the sequential fallback was applied even
though a matching default rule declared the page terminal. -/
theorem default_null_target_counterexample :
    c8db.nav_rules.map (fun r => (r.is_default, r.target_page_id)) = [(true, none)]
    ∧ renderNextOf (render_form c8db 1 "s" none 0) = some (some 2) :=
  ⟨rfl, rfl⟩

/-- Witness for the amended C8 at a concrete default-only rule list. -/
theorem default_rule_absent_target_falls_back_witness :
    determine_next_page 1 [c8rule] [] = c8rule.target_page_id
    ∧ (c8rule.target_page_id = none →
        nextPageWithFallback [c8p1, c8p2] 0 1 [c8rule] [] = seqNextPageId [c8p1, c8p2] 0) :=
  default_rule_absent_target_falls_back 1 [c8rule] [] [c8p1, c8p2] 0 c8rule
    (by decide) rfl

/-- A form whose only page has no fields at all (for claim C9). -/
def c9dbNoFields : DB :=
  { forms := [{ id := 1, title := "F" }],
    pages := [{ id := 1, form_id := 1, title := "Empty", order := 0, is_first := true }],
    fields := [], conditions := [], nav_rules := [], submissions := [] }

/-- A form with no pages at all (for claim C9). -/
def c9dbNoPages : DB :=
  { forms := [{ id := 1, title := "F" }], pages := [], fields := [],
    conditions := [], nav_rules := [], submissions := [] }

/-- Counterexample to claim C9 as stated: a page with no fields does *not*
make the render call fail — it renders successfully with an empty field
list. -/
theorem empty_page_renders_counterexample :
    c9dbNoFields.fields = []
    ∧ renderIsOk (render_form c9dbNoFields 1 "s" none 0) = true :=
  ⟨rfl, rfl⟩

/-- Claim C9 (amended): a render call fails exactly when the referenced form
does not exist or the form has no pages; a page with no fields renders
normally.  (Dangling foreign keys, which the schema's constraints exclude,
are outside the model: relationship lookups are modelled as total.) -/
theorem render_error_iff (db : DB) (form_id : Nat) (session_id : String)
    (current_answers_in : Option PyDict) (now : Nat) :
    renderIsOk (render_form db form_id session_id current_answers_in now) = false ↔
      ((db.forms.find? (fun f => f.id == form_id)).isNone = true
       ∨ db.pages.filter (fun p => p.form_id == form_id) = []) := by
  unfold render_form
  cases hform : db.forms.find? (fun f => f.id == form_id) with
  | none => simp [renderIsOk]
  | some form =>
    simp only [Option.isNone_some]
    constructor
    · intro herr
      refine Or.inr ?_
      split at herr
      next hcp =>
        have h1 := (resolveCurrentPage_none_iff _ _ _ _).mp hcp
        rw [getOrCreate_pages] at h1
        exact h1
      next page hcp =>
        exfalso
        revert herr
        split
        · split
          · rw [renderIsOk_finishRender]
            simp
          · rw [renderIsOk_finishRender]
            simp
        · rw [renderIsOk_finishRender]
          simp
    · intro hdisj
      rcases hdisj with hl | hr
      · cases hl
      · have hres : resolveCurrentPage (getOrCreateSubmission db form_id session_id) form_id
            (findSubmission db session_id form_id).isNone
            ((findSubmission (getOrCreateSubmission db form_id session_id)
              session_id form_id).bind fun s => s.current_page_id) = none := by
          apply (resolveCurrentPage_none_iff _ _ _ _).mpr
          rw [getOrCreate_pages]
          exact hr
        split
        next hcp => rfl
        next page hcp =>
          rw [hres] at hcp
          cases hcp

/-- Witness for the amended C9 at the no-pages database. -/
theorem render_error_iff_witness :
    renderIsOk (render_form c9dbNoPages 1 "s" none 0) = false :=
  (render_error_iff c9dbNoPages 1 "s" none 0).mpr (Or.inr rfl)

/-! ## Concrete witnesses for the engine-level claims -/

/-- Pages and a non-matching conditional rule for the C1 witness. -/
def c1p1 : PageRow := { id := 1, form_id := 1, title := "P1", order := 0, is_first := true }

def c1p2 : PageRow := { id := 2, form_id := 1, title := "P2", order := 1, is_first := false }

def c1rule : NavRule :=
  { page_id := 1, source_field_id := some 5, source_field_name := some "t",
    operator := .EQUALS, value := some "x", target_page_id := some 9, is_default := false }

/-- Witness for C1: with one unmatched conditional rule the engine resolves
to `none` and the caller falls back to the sequential successor. -/
theorem navigation_rule_resolution_witness :
    nextPageWithFallback [c1p1, c1p2] 0 1 [c1rule] [] = seqNextPageId [c1p1, c1p2] 0 :=
  (navigation_rule_resolution 1 [c1rule] [] [c1p1, c1p2] 0).2.2.2 rfl

/-- A matched `show` condition and its answer map for the C2 witness. -/
def c2cond : FieldCondition :=
  { source_field_id := 1, target_field_id := 2, source_field_name := "a",
    operator := .EQUALS, value := some "x", action := .SHOW }

def c2answers : PyDict := [("a", some (.vStr "x"))]

/-- Witness for C2: a matched `show` condition overwrites the hidden baseline. -/
theorem field_visibility_resolution_witness :
    (evaluate_field_conditions 2 [c2cond] c2answers).showFlag =
      (c2cond.action == ConditionAction.SHOW)
    ∧ (evaluate_field_conditions 2 [c2cond] c2answers).hideFlag =
      (c2cond.action == ConditionAction.HIDE) :=
  (field_visibility_resolution 2 [c2cond] c2answers).2.2.1 c2cond rfl

/-- Witness for C3: `equals` against a null observed value is false. -/
theorem null_observed_fail_closed_witness :
    evaluate_operator .EQUALS none "x" = false :=
  null_observed_fail_closed.1 .EQUALS "x" (by decide)

/-- Witness for C6 (amended) at scenario A's inputs. -/
theorem string_family_case_insensitive_scalars_witness :
    evaluate_operator .EQUALS (some (.vStr "NEW")) "new" =
      specEqualsCI (.vStr "NEW") "new" :=
  (string_family_case_insensitive_scalars (.vStr "NEW") "new" rfl).1.1

/-- Witness for C7: `greater_than` on an unparseable observed value is false. -/
theorem operator_evaluation_total_witness :
    evaluate_operator .GREATER_THAN (some (.vStr "abc")) "5" = false :=
  operator_evaluation_total.2 .GREATER_THAN (.vStr "abc") "5" (Or.inl rfl) (Or.inl rfl)

end FormBuilder




